import Mathlib

/-!
Verification of the GlitchForge editor core: a shallow embedding of the
layer model, parameter store, render-loop uniform binding, GPU program
rebuild protocol, and the two export compilers
(`exportHTML` in `src/components/GlitchForge.tsx` and
`exportReactComponent` in the second component variant), together with
theorems settling the specification claims.

Numbers are modelled as `ℚ` (the editor state only ever holds finite
decimal values coming from sliders and literals, all exactly
representable). Shader source bodies are opaque data per the spec
("excluding the effect catalog's shader-source bodies, which are opaque
data"), so each is represented by a distinct abstract marker string; no
claim inspects shader text.
-/

namespace GlitchForge

/-- A custom parameter descriptor of an effect definition
(`customParams` entry in the `Animation` interface). -/
structure CustomParamDef where
  name : String
  label : String
  min : ℚ
  max : ℚ
  default : ℚ
  uniform : String
deriving DecidableEq

/-- An effect definition (`Animation` interface): id, display name,
opaque fragment shader source, optional custom parameter descriptors. -/
structure Animation where
  id : String
  name : String
  fragmentShader : String
  customParams : Option (List CustomParamDef)
deriving DecidableEq

/-- The fixed vertex shader source (opaque text, `vertexShaderSource`). -/
def vertexShaderSource : String := "glsl-vertex-passthrough"

/-- `animations[0]`: Psychedelic Glitch, no custom parameters. -/
def glitchAnim : Animation :=
  { id := "glitch", name := "Psychedelic Glitch",
    fragmentShader := "glsl-fragment glitch", customParams := none }

/-- `animations[1]`: Plasma Waves, one custom parameter `frequency`
with default 3 bound to uniform `u_frequency`. -/
def plasmaAnim : Animation :=
  { id := "plasma", name := "Plasma Waves",
    fragmentShader := "glsl-fragment plasma",
    customParams := some [{ name := "frequency", label := "Wave Frequency",
                            min := 0.5, max := 10, default := 3,
                            uniform := "u_frequency" }] }

/-- The effect catalog (`animations` array of the second component
variant; the main component's catalog is a superset sharing the
`glitch` and `plasma` entries used by the claims). Fragment shader
bodies are opaque markers. -/
def animations : List Animation :=
  [ glitchAnim,
    plasmaAnim,
    { id := "neon-circuits", name := "Neon Circuits",
      fragmentShader := "glsl-fragment neon-circuits",
      customParams := some [{ name := "gridSize", label := "Grid Size",
                              min := 1, max := 20, default := 5, uniform := "u_gridSize" }] },
    { id := "blobs", name := "Organic Blobs",
      fragmentShader := "glsl-fragment blobs",
      customParams := some [{ name := "blobSize", label := "Blob Size",
                              min := 0.1, max := 1, default := 0.5, uniform := "u_blobSize" }] },
    { id := "noise-gradient", name := "Noise Gradient",
      fragmentShader := "glsl-fragment noise-gradient",
      customParams := some [{ name := "noiseScale", label := "Noise Scale",
                              min := 1, max := 20, default := 5, uniform := "u_noiseScale" }] },
    { id := "spotlight", name := "Spotlight Gradient",
      fragmentShader := "glsl-fragment spotlight",
      customParams := some
        [{ name := "spotSize", label := "Spot Size",
           min := 0.5, max := 5, default := 2, uniform := "u_spotSize" },
         { name := "spotIntensity", label := "Spot Intensity",
           min := 0.1, max := 3, default := 1.5, uniform := "u_spotIntensity" },
         { name := "spotPosX", label := "Spot Position X",
           min := 0, max := 1, default := 0.5, uniform := "u_spotPosX" }] },
    { id := "digital-rain", name := "Digital Rain",
      fragmentShader := "glsl-fragment digital-rain",
      customParams := some [{ name := "density", label := "Column Density",
                              min := 10, max := 100, default := 50, uniform := "u_density" }] },
    { id := "vaporwave", name := "Vaporwave Grid",
      fragmentShader := "glsl-fragment vaporwave",
      customParams := some [{ name := "perspective", label := "Perspective",
                              min := 0, max := 2, default := 0.5, uniform := "u_perspective" }] },
    { id := "holographic", name := "Holographic",
      fragmentShader := "glsl-fragment holographic",
      customParams := some [{ name := "phase", label := "Phase Shift",
                              min := 0, max := 6.28, default := 0, uniform := "u_phase" }] },
    { id := "cyberpunk", name := "Cyberpunk Glitch",
      fragmentShader := "glsl-fragment cyberpunk",
      customParams := some [{ name := "glitchIntensity", label := "Glitch Intensity",
                              min := 0, max := 1, default := 0.5, uniform := "u_glitchIntensity" }] },
    { id := "aurora", name := "Aurora Borealis",
      fragmentShader := "glsl-fragment aurora",
      customParams := some [{ name := "windSpeed", label := "Wind Speed",
                              min := 0.1, max := 3, default := 1, uniform := "u_windSpeed" }] },
    { id := "neural", name := "Neural Network",
      fragmentShader := "glsl-fragment neural",
      customParams := some [{ name := "nodeCount", label := "Node Count",
                              min := 5, max := 30, default := 15, uniform := "u_nodeCount" }] },
    { id := "kaleidoscope", name := "Kaleidoscope",
      fragmentShader := "glsl-fragment kaleidoscope",
      customParams := some [{ name := "segments", label := "Segments",
                              min := 2, max := 12, default := 6, uniform := "u_segments" }] },
    { id := "tunnel", name := "Infinite Tunnel",
      fragmentShader := "glsl-fragment tunnel",
      customParams := some [{ name := "depth", label := "Depth",
                              min := 0.5, max := 5, default := 2, uniform := "u_depth" }] },
    { id := "fire", name := "Solar Flare",
      fragmentShader := "glsl-fragment fire", customParams := none },
    { id := "spiral", name := "Infinite Spiral",
      fragmentShader := "glsl-fragment spiral", customParams := none } ]

/-- Button-specific layer properties (`buttonProps`). -/
structure ButtonProps where
  width : ℚ
  height : ℚ
  bgColor : String
  borderRadius : ℚ
  borderWidth : ℚ
  borderColor : String
  url : String
  target : String
deriving DecidableEq

/-- Layer kind (`type: 'text' | 'button'`). -/
inductive LayerKind
  | text
  | button
deriving DecidableEq

/-- An overlay layer (`Layer` interface). Optional fields of either
component variant are modelled as `Option`. -/
structure Layer where
  id : String
  type : LayerKind
  text : String
  x : ℚ
  y : ℚ
  size : ℚ
  font : String
  weight : ℚ
  opacity : ℚ
  rotation : ℚ
  color : String
  textAlign : Option String := none
  letterSpacing : Option ℚ := none
  lineHeight : Option ℚ := none
  textShadow : Option String := none
  fontUrl : Option String := none
  buttonProps : Option ButtonProps := none
deriving DecidableEq

/-- Live shader parameter state (`ShaderParams` interface).
`customParams` is a sparse JS record, modelled as an association list
(later occurrences shadowed by earlier lookup, matching object-spread
update order is irrelevant to the claims, which only read it). -/
structure ShaderParams where
  colors : List String
  complexity : ℚ
  zoom : ℚ
  speed : ℚ
  distortion : ℚ
  customParams : Option (List (String × ℚ))
deriving DecidableEq

/-- Lookup in a JS record modelled as an association list. -/
def recordLookup (m : List (String × ℚ)) (k : String) : Option ℚ :=
  (m.find? (fun e => e.1 == k)).map (fun e => e.2)

/-- `params.customParams?.[name]`: optional-chained record lookup. -/
def lookupCustom (cv : Option (List (String × ℚ))) (k : String) : Option ℚ :=
  cv.bind (fun m => recordLookup m k)

/-- The initial `ShaderParams` state (component `useState` initializer). -/
def initialParams : ShaderParams :=
  { colors := ["#ccff00", "#ff00ff", "#00ffff", "#ff6600", "#0066ff"],
    complexity := 80, zoom := 1.5, speed := 1, distortion := 1,
    customParams := some [] }

/-- The initial layer (`useState` initializer of `layers` in the main
component). -/
def initialLayer : Layer :=
  { id := "1", type := .text, text := "GLITCH // FORGE", x := 50, y := 50,
    size := 48, font := "monospace", weight := 700, opacity := 1,
    rotation := 0, color := "#ccff00", textAlign := some "center",
    letterSpacing := some 2, lineHeight := some 1.2,
    textShadow := some "0 0 10px rgba(204, 255, 0, 0.5)" }

/-- The initial layer collection. -/
def initialLayers : List Layer := [initialLayer]

/-! ## Color conversion (`hexToRgb` inside the render loop, lines 1554-1559) -/

/-- Value of one hex digit (as consumed by `parseInt(·, 16)`);
`none` on a non-hex character (JS would yield `NaN`). -/
def hexDigitVal (c : Char) : Option ℕ :=
  if 48 ≤ c.toNat ∧ c.toNat ≤ 57 then some (c.toNat - 48)
  else if 97 ≤ c.toNat ∧ c.toNat ≤ 102 then some (c.toNat - 87)
  else if 65 ≤ c.toNat ∧ c.toNat ≤ 70 then some (c.toNat - 55)
  else none

/-- `parseInt` of a two-character hex slice. -/
def parseHexPair (c1 c2 : Char) : Option ℕ := do
  let h ← hexDigitVal c1
  let l ← hexDigitVal c2
  pure (16 * h + l)

/-- `hexToRgb`: parses `hex.slice(1,3)`, `hex.slice(3,5)`, `hex.slice(5,7)`
base 16 and divides each channel by 255. Inputs shorter than 7 characters
or with non-hex digits yield `none` (JS: `NaN` components). -/
def hexToRgb (s : String) : Option (ℚ × ℚ × ℚ) :=
  match s.data with
  | _ :: r1 :: r2 :: g1 :: g2 :: b1 :: b2 :: _ => do
      let rn ← parseHexPair r1 r2
      let gn ← parseHexPair g1 g2
      let bn ← parseHexPair b1 b2
      pure ((rn : ℚ) / 255, (gn : ℚ) / 255, (bn : ℚ) / 255)
  | _ => none

/-! ## Per-frame uniform binding (render loop, lines 1543-1578) -/

/-- A value written to a uniform location during one frame tick.
`nanv` marks a binding whose components would be `NaN` in JS
(palette entry that is not parsable hex). -/
inductive UniformValue
  | f1 (v : ℚ)
  | f2 (a b : ℚ)
  | f3 (a b c : ℚ)
  | nanv
deriving DecidableEq

/-- The `uniform3f` value bound for one palette color. -/
def colorBinding (c : String) : UniformValue :=
  match hexToRgb c with
  | some (r, g, b) => .f3 r g b
  | none => .nanv

/-- The five palette writes `u_c1 … u_c5`
(`params.colors.forEach((color, i) => …)`). -/
def paletteWrites (colors : List String) : List (String × UniformValue) :=
  colors.enum.map (fun p => ("u_c" ++ toString (p.1 + 1), colorBinding p.2))

/-- The custom-parameter writes
(`selectedAnimation.customParams?.forEach`): each declared parameter is
bound to `params.customParams?.[name] ?? default`. -/
def customWrites (anim : Animation) (params : ShaderParams) :
    List (String × UniformValue) :=
  (anim.customParams.getD []).map
    (fun p => (p.uniform, .f1 ((lookupCustom params.customParams p.name).getD p.default)))

/-- All uniform writes of one frame tick, in source order: resolution,
time, palette, the four global scalars, then the custom parameters. -/
def renderTickWrites (anim : Animation) (params : ShaderParams)
    (width height t : ℚ) : List (String × UniformValue) :=
  [("r", .f2 width height), ("t", .f1 t)]
    ++ paletteWrites params.colors
    ++ [("u_zoom", .f1 params.zoom), ("u_complexity", .f1 params.complexity),
        ("u_speed", .f1 params.speed), ("u_distortion", .f1 params.distortion)]
    ++ customWrites anim params

/-! ## GPU program rebuild (`useEffect`, lines 1507-1532)

The GL resource state is modelled by the list of live (allocated and
not yet deleted) program handles, the component's `programRef`, and a
fresh-handle counter. The rebuild mirrors the effect body: it first
deletes the program held in `programRef` (`gl.deleteProgram`), then
compiles both shaders — only the fragment shader's compile status is
checked — and on failure returns early leaving `programRef` untouched;
on success it links a fresh program and installs it in `programRef`. -/

structure GLState where
  livePrograms : List ℕ
  programRef : Option ℕ
  nextHandle : ℕ
deriving DecidableEq

/-- One run of the program-rebuild effect. `fragmentCompileOk` is the
`gl.getShaderParameter(fragmentShader, gl.COMPILE_STATUS)` outcome; the
vertex shader's status is never consulted by the source. -/
def rebuildProgram (st : GLState) (fragmentCompileOk : Bool) : GLState :=
  let st1 :=
    match st.programRef with
    | some p => { st with livePrograms := st.livePrograms.erase p }
    | none => st
  if fragmentCompileOk then
    { livePrograms := st1.livePrograms ++ [st1.nextHandle],
      programRef := some st1.nextHandle,
      nextHandle := st1.nextHandle + 1 }
  else st1

/-! ## Layer model operations -/

/-- `deleteLayer` (main component, lines 1656-1660): a no-op when at
most one layer remains; otherwise removes the selected layer and resets
the selection to the pre-deletion first layer's id. Returns the new
`(layers, selectedLayerId)` state. -/
def deleteLayer (layers : List Layer) (selectedLayerId : String) :
    List Layer × String :=
  if layers.length ≤ 1 then (layers, selectedLayerId)
  else (layers.filter (fun l => l.id != selectedLayerId),
        (layers.head?.map Layer.id).getD selectedLayerId)

/-- A sequence of `deleteLayer` calls, each performed with an arbitrary
currently-selected id (covering interleaved selection changes). -/
def deleteMany (layers : List Layer) (sels : List String) : List Layer :=
  sels.foldl (fun ls s => (deleteLayer ls s).1) layers

/-- A `Partial<Layer>` update object: absent fields are `none`. -/
structure LayerPatch where
  id : Option String := none
  type : Option LayerKind := none
  text : Option String := none
  x : Option ℚ := none
  y : Option ℚ := none
  size : Option ℚ := none
  font : Option String := none
  weight : Option ℚ := none
  opacity : Option ℚ := none
  rotation : Option ℚ := none
  color : Option String := none
  textAlign : Option String := none
  letterSpacing : Option ℚ := none
  lineHeight : Option ℚ := none
  textShadow : Option String := none
  fontUrl : Option String := none
  buttonProps : Option ButtonProps := none
deriving DecidableEq

/-- The empty update object. -/
def emptyPatch : LayerPatch := {}

/-- JS object spread `{ ...layer, ...updates }`: a field present in the
patch replaces the layer's field, otherwise the layer's value is kept. -/
def applyPatch (l : Layer) (u : LayerPatch) : Layer :=
  { id := u.id.getD l.id,
    type := u.type.getD l.type,
    text := u.text.getD l.text,
    x := u.x.getD l.x,
    y := u.y.getD l.y,
    size := u.size.getD l.size,
    font := u.font.getD l.font,
    weight := u.weight.getD l.weight,
    opacity := u.opacity.getD l.opacity,
    rotation := u.rotation.getD l.rotation,
    color := u.color.getD l.color,
    textAlign := (u.textAlign.map some).getD l.textAlign,
    letterSpacing := (u.letterSpacing.map some).getD l.letterSpacing,
    lineHeight := (u.lineHeight.map some).getD l.lineHeight,
    textShadow := (u.textShadow.map some).getD l.textShadow,
    fontUrl := (u.fontUrl.map some).getD l.fontUrl,
    buttonProps := (u.buttonProps.map some).getD l.buttonProps }

/-- `updateLayer` (lines 1662-1664): merges the update into the layer
whose id equals the currently selected id, leaving all others alone. -/
def updateLayer (layers : List Layer) (selectedLayerId : String)
    (u : LayerPatch) : List Layer :=
  layers.map (fun l => if l.id = selectedLayerId then applyPatch l u else l)

/-- Frame condition for a merge: every field the patch does not supply
is unchanged between `l` (before) and `l2` (after). -/
def unsuppliedUnchanged (l : Layer) (u : LayerPatch) (l2 : Layer) : Prop :=
  (u.id = none → l2.id = l.id) ∧
  (u.type = none → l2.type = l.type) ∧
  (u.text = none → l2.text = l.text) ∧
  (u.x = none → l2.x = l.x) ∧
  (u.y = none → l2.y = l.y) ∧
  (u.size = none → l2.size = l.size) ∧
  (u.font = none → l2.font = l.font) ∧
  (u.weight = none → l2.weight = l.weight) ∧
  (u.opacity = none → l2.opacity = l.opacity) ∧
  (u.rotation = none → l2.rotation = l.rotation) ∧
  (u.color = none → l2.color = l.color) ∧
  (u.textAlign = none → l2.textAlign = l.textAlign) ∧
  (u.letterSpacing = none → l2.letterSpacing = l.letterSpacing) ∧
  (u.lineHeight = none → l2.lineHeight = l.lineHeight) ∧
  (u.textShadow = none → l2.textShadow = l.textShadow) ∧
  (u.fontUrl = none → l2.fontUrl = l.fontUrl) ∧
  (u.buttonProps = none → l2.buttonProps = l.buttonProps)

/-- Pointer-drag state (`dragging`). -/
structure DragState where
  id : String
  offsetX : ℚ
  offsetY : ℚ
deriving DecidableEq

/-- `handlePointerMove` of the main component (lines 1605-1616): the
requested percentage position is clamped to [0,100] on each axis via
`Math.max(0, Math.min(100, ·))` before being stored. -/
def handlePointerMove (layers : List Layer) (dragging : Option DragState)
    (clientX clientY innerWidth innerHeight : ℚ) : List Layer :=
  match dragging with
  | none => layers
  | some d =>
      let x := (clientX - d.offsetX) / innerWidth * 100
      let y := (clientY - d.offsetY) / innerHeight * 100
      layers.map (fun l =>
        if l.id = d.id then
          { l with x := max 0 (min 100 x), y := max 0 (min 100 y) }
        else l)

/-- `handlePointerMove` of the second component variant (part_003,
lines 607-612): the requested position is stored without clamping. -/
def handlePointerMoveRaw (layers : List Layer) (dragging : Option DragState)
    (clientX clientY innerWidth innerHeight : ℚ) : List Layer :=
  match dragging with
  | none => layers
  | some d =>
      let x := (clientX - d.offsetX) / innerWidth * 100
      let y := (clientY - d.offsetY) / innerHeight * 100
      layers.map (fun l => if l.id = d.id then { l with x := x, y := y } else l)

/-! ## Selection (`setSelectedAnimation` via the Mode select control) -/

/-- The editor state touched by effect selection. -/
structure EditorState where
  selectedAnimation : Animation
  params : ShaderParams
deriving DecidableEq

/-- `onValueChange={(id) => setSelectedAnimation(animations.find((a) => a.id === id)!)}`
(line 1951 / part_003 line 855). The non-null assertion `!` is modelled
by `Option`: `none` when the id is not in the catalog. No other state is
touched — in particular `params.customParams` is not reset. -/
def setSelection (st : EditorState) (id : String) : Option EditorState :=
  (animations.find? (fun a => a.id == id)).map
    (fun a => { st with selectedAnimation := a })

/-! ## Export compilers

The artifacts are modelled structurally: every datum the source
interpolates into the template text is a field, in source order, so two
artifacts are equal iff the generated texts agree (the templates'
fixed text is constant and each interpolation is recorded exactly). -/

/-- Substring test on character lists (JS `String.prototype.includes`). -/
def containsSub (s pat : List Char) : Bool :=
  match s with
  | [] => pat.isEmpty
  | _ :: rest => pat.isPrefixOf s || containsSub rest pat

/-- JS `s.includes(pat)`. -/
def strContains (s pat : String) : Bool := containsSub s.data pat.data

/-- JS `s.toLowerCase()` (ASCII, sufficient for the URLs involved). -/
def strToLower (s : String) : String := String.mk (s.data.map Char.toLower)

/-- JS `v || d` on an optional string: falls back on `undefined` and on
the empty string (both falsy). -/
def jsOrStr (v : Option String) (d : String) : String :=
  match v with
  | some s => if s = "" then d else s
  | none => d

/-- The markup generated for one layer in the exported HTML body
(lines 1797-1805): every per-layer datum interpolated into the `div` /
`a` template, in source order. `Option` fields interpolate as JS
`undefined`. -/
inductive LayerMarkup
  | textDiv (x y size weight opacity rotation : ℚ) (color : String)
      (textAlign : Option String) (letterSpacing lineHeight : Option ℚ)
      (textShadow : Option String) (font text : String)
  | buttonAnchor (url target : String) (x y : ℚ)
      (width height : Option ℚ) (size weight opacity rotation : ℚ)
      (color : String) (bgColor : Option String)
      (borderRadius borderWidth : Option ℚ) (borderColor : Option String)
      (font text : String)
deriving DecidableEq

/-- Serialization of one layer into exported markup. Text layers emit a
`div`; button layers emit an `a` with `url || '#'` and
`target || '_self'` fallbacks. -/
def layerMarkup (l : Layer) : LayerMarkup :=
  match l.type with
  | .text =>
      .textDiv l.x l.y l.size l.weight l.opacity l.rotation l.color
        l.textAlign l.letterSpacing l.lineHeight l.textShadow l.font l.text
  | .button =>
      .buttonAnchor (jsOrStr (l.buttonProps.map ButtonProps.url) "#")
        (jsOrStr (l.buttonProps.map ButtonProps.target) "_self")
        l.x l.y (l.buttonProps.map ButtonProps.width)
        (l.buttonProps.map ButtonProps.height)
        l.size l.weight l.opacity l.rotation l.color
        (l.buttonProps.map ButtonProps.bgColor)
        (l.buttonProps.map ButtonProps.borderRadius)
        (l.buttonProps.map ButtonProps.borderWidth)
        (l.buttonProps.map ButtonProps.borderColor)
        l.font l.text

/-- The standalone HTML artifact produced by `exportHTML`
(lines 1773-1898): every interpolated datum, in template order. -/
structure HtmlArtifact where
  fontLinkHref : Option String
  fontFace : Option (String × String)
  layerMarkups : List LayerMarkup
  vertexSource : String
  fragmentSource : String
  colors : List String
  complexity : ℚ
  zoom : ℚ
  speed : ℚ
  distortion : ℚ
  customParamsJson : List (String × ℚ)
  customUniformLines : List (String × ℚ)
deriving DecidableEq

/-- `exportHTML`: assembles the artifact directly from the live
component state. There is no validation pre-pass anywhere in the
source: every input, whatever its layers contain, yields a complete
artifact. Besides the `ShaderParams`/selection/layers snapshot it also
reads the `customFontUrl` and `loadedFontName` component state for the
font link tag and `@font-face` rule. -/
def exportHTML (params : ShaderParams) (anim : Animation)
    (layers : List Layer) (customFontUrl loadedFontName : String) :
    HtmlArtifact :=
  let isCSS : Bool := customFontUrl != "" &&
    (strContains customFontUrl "fonts.googleapis.com" ||
     strContains (strToLower customFontUrl) ".css")
  { fontLinkHref := if isCSS then some customFontUrl else none,
    fontFace :=
      if !isCSS && customFontUrl != "" && loadedFontName != "" then
        some (loadedFontName, customFontUrl)
      else none,
    layerMarkups := layers.map layerMarkup,
    vertexSource := vertexShaderSource,
    fragmentSource := anim.fragmentShader,
    colors := params.colors,
    complexity := params.complexity,
    zoom := params.zoom,
    speed := params.speed,
    distortion := params.distortion,
    customParamsJson := params.customParams.getD [],
    customUniformLines :=
      (anim.customParams.getD []).map
        (fun p => (p.uniform, (lookupCustom params.customParams p.name).getD p.default)) }

/-- The uniform writes performed each frame by the generated HTML
artifact's own `render` function (generated script, lines 1850-1878):
resolution, time, palette, the four baked scalars, then the baked
custom-parameter lines. -/
def htmlRenderWrites (a : HtmlArtifact) (width height t : ℚ) :
    List (String × UniformValue) :=
  [("r", .f2 width height), ("t", .f1 t)]
    ++ paletteWrites a.colors
    ++ [("u_zoom", .f1 a.zoom), ("u_complexity", .f1 a.complexity),
        ("u_speed", .f1 a.speed), ("u_distortion", .f1 a.distortion)]
    ++ a.customUniformLines.map (fun p => (p.1, UniformValue.f1 p.2))

/-- Insertion-order deduplication (JS `Array.from(new Set(·))`). -/
def dedupFirst (l : List String) : List String :=
  l.foldl (fun acc a => if a ∈ acc then acc else acc ++ [a]) []

/-- The standalone React component artifact produced by
`exportReactComponent` (part_003, lines 660-834): every interpolated
datum, in template order. Note there is no custom-parameter field: the
generated component's render loop binds only the resolution, time, the
four scalars and the palette. -/
structure TsxArtifact where
  componentName : String
  usedFontUrls : List String
  vertexSource : String
  fragmentSource : String
  zoom : ℚ
  complexity : ℚ
  speed : ℚ
  distortion : ℚ
  colorsJs : List String
  layersJs : List Layer
deriving DecidableEq

/-- `exportReactComponent`: assembles the TSX artifact from the
snapshot. `usedFontUrls` is `Array.from(new Set(layers.map(l => l.fontUrl).filter(Boolean)))`. -/
def exportReactComponent (params : ShaderParams) (anim : Animation)
    (layers : List Layer) : TsxArtifact :=
  { componentName := "GlitchEffect",
    usedFontUrls :=
      dedupFirst (layers.filterMap
        (fun l => match l.fontUrl with
                  | some u => if u = "" then none else some u
                  | none => none)),
    vertexSource := vertexShaderSource,
    fragmentSource := anim.fragmentShader,
    zoom := params.zoom,
    complexity := params.complexity,
    speed := params.speed,
    distortion := params.distortion,
    colorsJs := params.colors,
    layersJs := layers }

/-- The uniform writes performed each frame by the generated TSX
artifact's `render` function (generated code, part_003 lines 763-786):
resolution, time, the four baked scalars, the palette — and nothing
else; no custom-parameter uniform is ever bound. -/
def tsxRenderWrites (a : TsxArtifact) (width height t : ℚ) :
    List (String × UniformValue) :=
  [("r", .f2 width height), ("t", .f1 t),
   ("u_zoom", .f1 a.zoom), ("u_complexity", .f1 a.complexity),
   ("u_speed", .f1 a.speed), ("u_distortion", .f1 a.distortion)]
    ++ paletteWrites a.colorsJs

/-! ## Helper lemmas -/

/-- A parsed hex digit is at most 15. -/
lemma hexDigitVal_le {c : Char} {n : ℕ} (h : hexDigitVal c = some n) :
    n ≤ 15 := by
  unfold hexDigitVal at h
  split_ifs at h with h1 h2 h3 <;> (injection h with h; omega)

/-- A parsed two-digit hex slice is at most 255. -/
lemma parseHexPair_le {c1 c2 : Char} {n : ℕ}
    (h : parseHexPair c1 c2 = some n) : n ≤ 255 := by
  unfold parseHexPair at h
  cases hh1 : hexDigitVal c1 with
  | none => rw [hh1] at h; exact Option.noConfusion h
  | some a =>
      cases hh2 : hexDigitVal c2 with
      | none => rw [hh1, hh2] at h; exact Option.noConfusion h
      | some b =>
          rw [hh1, hh2] at h
          injection h with h
          have ha := hexDigitVal_le hh1
          have hb := hexDigitVal_le hh2
          omega

/-- One `deleteLayer` call keeps the collection non-empty and keeps the
ids duplicate-free (ids are unique per the data-model invariant). -/
lemma deleteLayer_preserves (layers : List Layer) (sel : String)
    (h1 : layers ≠ []) (h2 : (layers.map Layer.id).Nodup) :
    (deleteLayer layers sel).1 ≠ []
    ∧ (((deleteLayer layers sel).1).map Layer.id).Nodup := by
  by_cases hlen : layers.length ≤ 1
  · simp only [deleteLayer, if_pos hlen]
    exact ⟨h1, h2⟩
  · simp only [deleteLayer, if_neg hlen]
    constructor
    · cases layers with
      | nil => exact absurd rfl h1
      | cons a tl =>
          cases tl with
          | nil => simp at hlen
          | cons b rest =>
              have hab : a.id ≠ b.id := by
                rw [List.map_cons, List.nodup_cons] at h2
                exact fun hEq => h2.1 (by rw [hEq, List.map_cons]; exact List.mem_cons_self _ _)
              by_cases ha : a.id = sel
              · have hb : b.id ≠ sel := fun hbEq => hab (ha.trans hbEq.symm)
                exact List.ne_nil_of_mem
                  (List.mem_filter.mpr
                    ⟨List.mem_cons_of_mem _ (List.mem_cons_self _ _), by simpa using hb⟩)
              · exact List.ne_nil_of_mem
                  (List.mem_filter.mpr ⟨List.mem_cons_self _ _, by simpa using ha⟩)
    · exact h2.sublist ((List.filter_sublist _).map Layer.id)

/-- Merging a patch leaves every unsupplied field unchanged. -/
lemma applyPatch_unsupplied (l : Layer) (u : LayerPatch) :
    unsuppliedUnchanged l u (applyPatch l u) := by
  unfold unsuppliedUnchanged applyPatch
  refine ⟨?_, ?_, ?_, ?_, ?_, ?_, ?_, ?_, ?_, ?_, ?_, ?_, ?_, ?_, ?_, ?_, ?_⟩ <;>
    (intro hf; simp [hf])

/-- The frame condition holds reflexively. -/
lemma unsuppliedUnchanged_self (l : Layer) (u : LayerPatch) :
    unsuppliedUnchanged l u l := by
  unfold unsuppliedUnchanged
  refine ⟨?_, ?_, ?_, ?_, ?_, ?_, ?_, ?_, ?_, ?_, ?_, ?_, ?_, ?_, ?_, ?_, ?_⟩ <;>
    (intro _; rfl)

/-- Any sequence of `deleteLayer` calls keeps the collection non-empty. -/
lemma deleteMany_ne_nil (sels : List String) :
    ∀ layers : List Layer, layers ≠ [] → (layers.map Layer.id).Nodup →
      deleteMany layers sels ≠ [] := by
  induction sels with
  | nil => exact fun _ h1 _ => h1
  | cons s rest ih =>
      intro layers h1 h2
      have hstep := deleteLayer_preserves layers s h1 h2
      exact ih _ hstep.1 hstep.2

/-! ## Claim theorems -/

/-- C6: every 6-digit hex palette color converts by dividing each 0-255
channel by 255, so all components lie in [0,1]; in particular
`#ccff00` converts to exactly (204/255, 255/255, 0/255). -/
theorem hexToRgb_normalized (s : String) (r g b : ℚ)
    (h : hexToRgb s = some (r, g, b)) :
    (0 ≤ r ∧ r ≤ 1 ∧ 0 ≤ g ∧ g ≤ 1 ∧ 0 ≤ b ∧ b ≤ 1)
    ∧ (∃ rn gn bn : ℕ, rn ≤ 255 ∧ gn ≤ 255 ∧ bn ≤ 255 ∧
        r = (rn : ℚ) / 255 ∧ g = (gn : ℚ) / 255 ∧ b = (bn : ℚ) / 255)
    ∧ hexToRgb "#ccff00" = some (204 / 255, 255 / 255, 0 / 255) := by
  have key : ∃ rn gn bn : ℕ, rn ≤ 255 ∧ gn ≤ 255 ∧ bn ≤ 255 ∧
      r = (rn : ℚ) / 255 ∧ g = (gn : ℚ) / 255 ∧ b = (bn : ℚ) / 255 := by
    unfold hexToRgb at h
    split at h
    · simp only [bind, Option.bind_eq_some, Option.pure_def,
        Option.some.injEq, Prod.mk.injEq] at h
      obtain ⟨rn, hrn, gn, hgn, bn, hbn, hre, hge, hbe⟩ := h
      exact ⟨rn, gn, bn, parseHexPair_le hrn, parseHexPair_le hgn,
        parseHexPair_le hbn, hre.symm, hge.symm, hbe.symm⟩
    · exact Option.noConfusion h
  obtain ⟨rn, gn, bn, hrn, hgn, hbn, hre, hge, hbe⟩ := key
  have h255 : (0 : ℚ) < 255 := by norm_num
  refine ⟨⟨?_, ?_, ?_, ?_, ?_, ?_⟩,
    ⟨rn, gn, bn, hrn, hgn, hbn, hre, hge, hbe⟩, by rfl⟩
  · rw [hre]; positivity
  · rw [hre, div_le_one h255]; exact_mod_cast hrn
  · rw [hge]; positivity
  · rw [hge, div_le_one h255]; exact_mod_cast hgn
  · rw [hbe]; positivity
  · rw [hbe, div_le_one h255]; exact_mod_cast hbn

/-- C6 witness: the theorem applied to the concrete color `#ccff00`. -/
theorem hexToRgb_normalized_witness :
    ((0 : ℚ) ≤ 204 / 255 ∧ (204 : ℚ) / 255 ≤ 1 ∧ (0 : ℚ) ≤ 255 / 255 ∧
      (255 : ℚ) / 255 ≤ 1 ∧ (0 : ℚ) ≤ 0 / 255 ∧ (0 : ℚ) / 255 ≤ 1)
    ∧ (∃ rn gn bn : ℕ, rn ≤ 255 ∧ gn ≤ 255 ∧ bn ≤ 255 ∧
        (204 : ℚ) / 255 = (rn : ℚ) / 255 ∧ (255 : ℚ) / 255 = (gn : ℚ) / 255 ∧
        (0 : ℚ) / 255 = (bn : ℚ) / 255)
    ∧ hexToRgb "#ccff00" = some (204 / 255, 255 / 255, 0 / 255) :=
  hexToRgb_normalized "#ccff00" (204 / 255) (255 / 255) (0 / 255) (by rfl)

/-- C5: on every frame tick, each custom parameter declared by the
active definition is bound to `customValues[name]` when present, else
its declared default; selecting `plasma` (custom parameter `frequency`,
default 3) with the initial (empty) overrides binds exactly 3. -/
theorem custom_uniform_binding (anim : Animation) (params : ShaderParams)
    (w h t : ℚ) (p : CustomParamDef)
    (hp : p ∈ anim.customParams.getD []) :
    (p.uniform,
      UniformValue.f1 ((lookupCustom params.customParams p.name).getD p.default))
      ∈ renderTickWrites anim params w h t
    ∧ ("u_frequency", UniformValue.f1 3) ∈ renderTickWrites plasmaAnim initialParams w h t := by
  constructor
  · unfold renderTickWrites customWrites
    exact List.mem_append_right _ (List.mem_map_of_mem _ hp)
  · have hcw : customWrites plasmaAnim initialParams
        = [("u_frequency", UniformValue.f1 3)] := by rfl
    unfold renderTickWrites
    exact List.mem_append_right _ (by rw [hcw]; exact List.mem_singleton_self _)

/-- C5 witness: the theorem applied to the `plasma` definition and the
initial parameters at a concrete frame. -/
theorem custom_uniform_binding_witness :
    ("u_frequency",
      UniformValue.f1 ((lookupCustom initialParams.customParams "frequency").getD 3))
      ∈ renderTickWrites plasmaAnim initialParams 800 600 0 :=
  (custom_uniform_binding plasmaAnim initialParams 800 600 0
    { name := "frequency", label := "Wave Frequency", min := 0.5, max := 10,
      default := 3, uniform := "u_frequency" }
    (by
      rw [show plasmaAnim.customParams.getD []
          = [{ name := "frequency", label := "Wave Frequency", min := 0.5,
               max := 10, default := 3, uniform := "u_frequency" }] from rfl]
      exact List.mem_singleton_self _)).1

/-- C2: starting from a non-empty collection with unique layer ids (the
data-model invariant), no sequence of `deleteLayer` calls can empty it,
and a delete issued with exactly one layer left is a complete no-op. -/
theorem deleteLayer_never_empties (layers : List Layer) (sels : List String)
    (h1 : layers ≠ []) (h2 : (layers.map Layer.id).Nodup) :
    deleteMany layers sels ≠ []
    ∧ (∀ sel, layers.length = 1 → deleteLayer layers sel = (layers, sel)) :=
  ⟨deleteMany_ne_nil sels layers h1 h2,
   fun _ hlen => by simp [deleteLayer, hlen]⟩

/-- C2 witness: the theorem applied to the initial single-layer state
and a concrete burst of delete requests. -/
theorem deleteLayer_never_empties_witness :
    deleteMany initialLayers ["1", "x", "1"] ≠ [] :=
  (deleteLayer_never_empties initialLayers ["1", "x", "1"]
    (by decide) (by decide)).1

/-- C10 counterexample: `updateLayer` with a partial field set that
supplies `id` changes the selected layer's id, contradicting the claim
that the id of every layer is unchanged for every partial field set. -/
theorem updateLayer_id_patch_changes_ids :
    (updateLayer initialLayers "1" { emptyPatch with id := some "2" }).map Layer.id = ["2"]
    ∧ initialLayers.map Layer.id = ["1"]
    ∧ ("2" : String) ≠ "1" :=
  ⟨by rfl, by rfl, by decide⟩

/-- C10 amended: for every update whose partial field set does not
supply `id`, the layer count, order and ids are unchanged, every layer
other than the selected one is untouched, and the selected layer keeps
every field the patch does not supply. -/
theorem updateLayer_frame (layers : List Layer) (sel : String) (u : LayerPatch)
    (hid : u.id = none) :
    ((updateLayer layers sel u).map Layer.id = layers.map Layer.id)
    ∧ ((updateLayer layers sel u).length = layers.length)
    ∧ (∀ (i : ℕ) (l0 l2 : Layer), layers[i]? = some l0 →
        (updateLayer layers sel u)[i]? = some l2 →
        (l0.id ≠ sel → l2 = l0) ∧ unsuppliedUnchanged l0 u l2) := by
  refine ⟨?_, ?_, ?_⟩
  · unfold updateLayer
    rw [List.map_map]
    apply List.map_congr_left
    intro l _
    by_cases hsel : l.id = sel
    · simp [hsel, applyPatch, hid]
    · simp [hsel]
  · unfold updateLayer; rw [List.length_map]
  · intro i l0 l2 h0 h2
    unfold updateLayer at h2
    rw [List.getElem?_map, h0] at h2
    simp only [Option.map_some', Option.some.injEq] at h2
    constructor
    · intro hne; rw [← h2]; simp [hne]
    · by_cases hsel : l0.id = sel
      · rw [← h2]; simp only [if_pos hsel]; exact applyPatch_unsupplied l0 u
      · rw [← h2]; simp only [if_neg hsel]; exact unsuppliedUnchanged_self l0 u

/-- C10 witness: the amended theorem applied to a concrete text edit of
the initial layer. -/
theorem updateLayer_frame_witness :
    (updateLayer initialLayers "1" { emptyPatch with text := some "EDITED" }).map Layer.id
      = initialLayers.map Layer.id :=
  (updateLayer_frame initialLayers "1" { emptyPatch with text := some "EDITED" } rfl).1

/-- C9 counterexample: the second component variant's pointer-move
handler stores the raw requested position; dragging past the left edge
leaves the layer at x = -50, outside [0,100]. -/
theorem pointer_move_unclamped_variant :
    (handlePointerMoveRaw initialLayers (some ⟨"1", 50, 0⟩) 0 0 100 100).map Layer.x
      = [-50]
    ∧ ¬ ((0 : ℚ) ≤ -50) := by
  constructor
  · norm_num [handlePointerMoveRaw, initialLayers, initialLayer]
  · norm_num

/-- C9 amended: in the main component, drag repositioning stores the
requested position clamped to [0,100] on each axis, so the repositioned
layer's x and y always lie in [0,100]; the second component variant
applies the raw position without clamping. -/
theorem handlePointerMove_clamps (layers : List Layer) (d : DragState)
    (cx cy w hgt : ℚ) (i : ℕ) (l0 l2 : Layer)
    (h0 : layers[i]? = some l0)
    (h2 : (handlePointerMove layers (some d) cx cy w hgt)[i]? = some l2)
    (hsel : l0.id = d.id) :
    l2.x = max 0 (min 100 ((cx - d.offsetX) / w * 100))
    ∧ l2.y = max 0 (min 100 ((cy - d.offsetY) / hgt * 100))
    ∧ 0 ≤ l2.x ∧ l2.x ≤ 100 ∧ 0 ≤ l2.y ∧ l2.y ≤ 100 := by
  unfold handlePointerMove at h2
  rw [List.getElem?_map, h0] at h2
  simp only [Option.map_some', Option.some.injEq] at h2
  rw [if_pos hsel] at h2
  subst h2
  refine ⟨rfl, rfl, le_max_left _ _, max_le (by norm_num) (min_le_left _ _),
    le_max_left _ _, max_le (by norm_num) (min_le_left _ _)⟩

/-- C9 witness: the amended theorem applied to a concrete drag of the
initial layer past the top-left corner. -/
theorem handlePointerMove_clamps_witness :
    (0 : ℚ) ≤ ({ initialLayer with
        x := max 0 (min 100 ((0 - 50) / 100 * 100)),
        y := max 0 (min 100 ((0 - 0) / 100 * 100)) } : Layer).x
    ∧ ({ initialLayer with
        x := max 0 (min 100 ((0 - 50) / 100 * 100)),
        y := max 0 (min 100 ((0 - 0) / 100 * 100)) } : Layer).x ≤ 100 :=
  have h := handlePointerMove_clamps initialLayers ⟨"1", 50, 0⟩ 0 0 100 100 0
    initialLayer
    { initialLayer with
        x := max 0 (min 100 ((0 - 50) / 100 * 100)),
        y := max 0 (min 100 ((0 - 0) / 100 * 100)) }
    rfl rfl rfl
  ⟨h.2.2.1, h.2.2.2.1⟩

/-- With a previous program installed, the rebuild reduces to: erase
that program first, then install a fresh one iff the fragment shader
compiled. -/
lemma rebuildProgram_some (st : GLState) (p : ℕ) (ok : Bool)
    (href : st.programRef = some p) :
    rebuildProgram st ok =
      if ok then
        { livePrograms := st.livePrograms.erase p ++ [st.nextHandle],
          programRef := some st.nextHandle, nextHandle := st.nextHandle + 1 }
      else { st with livePrograms := st.livePrograms.erase p } := by
  unfold rebuildProgram
  rw [href]

/-- C3 counterexample: with program 0 live and referenced, a rebuild
whose fragment shader fails to compile leaves no live program at all —
the previous program was already deleted — while the stale reference to
the deleted program is retained. -/
theorem rebuild_compile_failure_releases_previous :
    (rebuildProgram ⟨[0], some 0, 1⟩ false).livePrograms = []
    ∧ (rebuildProgram ⟨[0], some 0, 1⟩ false).programRef = some 0 :=
  ⟨rfl, rfl⟩

/-- C3 amended: the rebuild releases the previous program
unconditionally before compiling; a fragment-shader compile failure
aborts the rebuild non-fatally with the stale reference retained (the
referenced program no longer exists), and on success the fresh program
is installed. The vertex shader's compile status is never checked. -/
theorem rebuild_previous_released_before_replacement (st : GLState) (ok : Bool)
    (p : ℕ) (href : st.programRef = some p) (hnd : st.livePrograms.Nodup)
    (hfresh : p < st.nextHandle) :
    p ∉ (rebuildProgram st ok).livePrograms
    ∧ (ok = false → rebuildProgram st ok
        = { st with livePrograms := st.livePrograms.erase p })
    ∧ (ok = true → (rebuildProgram st ok).programRef = some st.nextHandle
        ∧ st.nextHandle ∈ (rebuildProgram st ok).livePrograms) := by
  have hne : p ∉ st.livePrograms.erase p := fun hmem =>
    ((hnd.mem_erase_iff).mp hmem).1 rfl
  rw [rebuildProgram_some st p ok href]
  cases ok with
  | false => exact ⟨by simpa using hne, fun _ => rfl, fun habs => Bool.noConfusion habs⟩
  | true =>
      refine ⟨?_, fun habs => Bool.noConfusion habs, fun _ => ⟨rfl, ?_⟩⟩
      · intro hmem
        have hsplit : p ∈ st.livePrograms.erase p ∨ p = st.nextHandle := by
          simpa using hmem
        rcases hsplit with hA | hB
        · exact hne hA
        · omega
      · simp

/-- C3 witness: the amended theorem applied to the concrete one-program
state, on the success path. -/
theorem rebuild_previous_released_witness :
    0 ∉ (rebuildProgram ⟨[0], some 0, 1⟩ true).livePrograms :=
  (rebuild_previous_released_before_replacement ⟨[0], some 0, 1⟩ true 0 rfl
    (by simp) (by norm_num)).1

/-- C4 counterexample: selecting `plasma` from a state whose custom
values map `frequency` to 7 leaves the map untouched — it is not reset
to empty — and the next frame binds 7, not the declared default 3. -/
theorem setSelection_keeps_custom_values :
    (setSelection
        { selectedAnimation := glitchAnim,
          params := { initialParams with customParams := some [("frequency", 7)] } }
        "plasma").map (fun st => st.params.customParams)
      = some (some [("frequency", 7)])
    ∧ ("u_frequency", UniformValue.f1 7)
        ∈ renderTickWrites plasmaAnim
            { initialParams with customParams := some [("frequency", 7)] } 800 600 0
    ∧ ([("frequency", (7 : ℚ))] : List (String × ℚ)) ≠ [] := by
  refine ⟨by rfl, ?_, by simp⟩
  have hcw : customWrites plasmaAnim
      { initialParams with customParams := some [("frequency", 7)] }
      = [("u_frequency", UniformValue.f1 7)] := by rfl
  unfold renderTickWrites
  exact List.mem_append_right _ (by rw [hcw]; exact List.mem_singleton_self _)

/-- C4 amended: `setSelection` replaces only the selected definition
(with the catalog entry of the requested id); the shader parameters —
`customValues` included — are left completely unchanged. -/
theorem setSelection_params_unchanged (st : EditorState) (id : String)
    (st2 : EditorState) (h : setSelection st id = some st2) :
    st2.params = st.params ∧ st2.selectedAnimation.id = id := by
  unfold setSelection at h
  cases hf : animations.find? (fun a => a.id == id) with
  | none => rw [hf] at h; exact Option.noConfusion h
  | some a =>
      rw [hf] at h
      simp only [Option.map_some', Option.some.injEq] at h
      have hid : a.id = id := by
        have := List.find?_some hf
        simpa using this
      rw [← h]
      exact ⟨rfl, hid⟩

/-- C4 witness: the amended theorem applied to the concrete selection
of `plasma` from a state with a non-empty custom-value map. -/
theorem setSelection_params_unchanged_witness :
    ({ selectedAnimation := plasmaAnim,
       params := { initialParams with customParams := some [("frequency", 7)] } } : EditorState).params
      = ({ selectedAnimation := glitchAnim,
           params := { initialParams with customParams := some [("frequency", 7)] } } : EditorState).params :=
  (setSelection_params_unchanged
    { selectedAnimation := glitchAnim,
      params := { initialParams with customParams := some [("frequency", 7)] } }
    "plasma"
    { selectedAnimation := plasmaAnim,
      params := { initialParams with customParams := some [("frequency", 7)] } }
    (by rfl)).1

/-- C1 counterexample: exporting a snapshot whose only layer has empty
text produces the complete artifact — including markup for that layer —
instead of aborting; no validation exists in either export path. -/
theorem exportHTML_empty_text_produces_artifact :
    (exportHTML initialParams glitchAnim [{ initialLayer with text := "" }] "" "").layerMarkups
      = [layerMarkup { initialLayer with text := "" }]
    ∧ (exportHTML initialParams glitchAnim [{ initialLayer with text := "" }] "" "").layerMarkups ≠ []
    ∧ ({ initialLayer with text := "" } : Layer).text = "" :=
  ⟨rfl, by decide, rfl⟩

/-- C1 amended: the export operation performs no validation pre-pass at
all — for every snapshot, whatever its layers contain, both export
paths produce the complete artifact embedding every layer. -/
theorem export_no_validation (params : ShaderParams) (anim : Animation)
    (layers : List Layer) (cfu lfn : String) :
    (exportHTML params anim layers cfu lfn).layerMarkups = layers.map layerMarkup
    ∧ (exportHTML params anim layers cfu lfn).fragmentSource = anim.fragmentShader
    ∧ (exportReactComponent params anim layers).layersJs = layers :=
  ⟨rfl, rfl, rfl⟩

/-- C7 code-bug evidence, evaluated at the failing input (the `plasma`
selection with default parameters): the snapshot declares the custom
parameter `frequency` (default 3); the HTML export bakes it exactly,
but the React component export's render loop never binds
`u_frequency` — the custom-parameter constant is absent from that
artifact. -/
theorem tsx_export_omits_custom_params :
    plasmaAnim.customParams.getD []
      = [{ name := "frequency", label := "Wave Frequency", min := 0.5, max := 10,
           default := 3, uniform := "u_frequency" }]
    ∧ (exportHTML initialParams plasmaAnim initialLayers "" "").customUniformLines
        = [("u_frequency", 3)]
    ∧ ((tsxRenderWrites (exportReactComponent initialParams plasmaAnim initialLayers)
          800 600 0).map Prod.fst).contains "u_frequency" = false :=
  ⟨rfl, by rfl, by rfl⟩

/-- C8 counterexample: two exports with identical `ShaderParameters`,
effect selection and `Layer` snapshots but different font-loader editor
state (`customFontUrl`, `loadedFontName`) produce different artifacts —
the font link tag differs — so the artifact is not a function of the
three snapshot inputs alone. -/
theorem exportHTML_depends_on_font_state :
    exportHTML initialParams glitchAnim initialLayers "" ""
      ≠ exportHTML initialParams glitchAnim initialLayers
          "https://fonts.googleapis.com/css2?family=Inter" "Inter"
    ∧ (exportHTML initialParams glitchAnim initialLayers "" "").fontLinkHref = none
    ∧ (exportHTML initialParams glitchAnim initialLayers
          "https://fonts.googleapis.com/css2?family=Inter" "Inter").fontLinkHref
        = some "https://fonts.googleapis.com/css2?family=Inter" :=
  ⟨by decide, by rfl, by rfl⟩

/-- C8 amended: both export operations are deterministic pure functions
of their full inputs — the snapshot plus, for the HTML export, the
font-loader state — with no timestamp or other hidden input: equal
inputs always yield identical artifacts. -/
theorem export_deterministic (p q : ShaderParams) (a b : Animation)
    (ls ms : List Layer) (fu1 fu2 fn1 fn2 : String)
    (hp : p = q) (ha : a = b) (hl : ls = ms) (hfu : fu1 = fu2) (hfn : fn1 = fn2) :
    exportHTML p a ls fu1 fn1 = exportHTML q b ms fu2 fn2
    ∧ exportReactComponent p a ls = exportReactComponent q b ms := by
  subst hp; subst ha; subst hl; subst hfu; subst hfn
  exact ⟨rfl, rfl⟩

/-- C8 witness: the amended theorem applied to the initial snapshot. -/
theorem export_deterministic_witness :
    exportHTML initialParams glitchAnim initialLayers "" ""
      = exportHTML initialParams glitchAnim initialLayers "" ""
    ∧ exportReactComponent initialParams glitchAnim initialLayers
      = exportReactComponent initialParams glitchAnim initialLayers :=
  export_deterministic initialParams initialParams glitchAnim glitchAnim
    initialLayers initialLayers "" "" "" "" rfl rfl rfl rfl rfl

end GlitchForge
